import Mathlib

/-!
Verification of the chat-completion proxy in `proxy/main.go`.

The Go program is shallowly embedded: the JSON wire format is modelled by a
structured `Json` value type (numbers as exact rationals, matching that Go
round-trips float64 values exactly through its JSON encoder), the
`encoding/json` behaviour on each concrete struct is modelled by explicit
`marshal` and `unmarshal` functions (missing keys leave the zero value, a
JSON null leaves most values unchanged and clears pointers, unknown keys are
ignored, later duplicate keys overwrite earlier ones, type mismatches are
errors), the HTTP handler `handleChatCompletions` is a pure function from an
inbound request to the response it writes plus the list of upstream
invocations it performs, and the real client `CreateChatCompletion` is a
pure function over an abstract transport standing for `http.Client.Do`
together with `io.ReadAll`.
-/

/-- Structured JSON values. Numbers are exact rationals. -/
inductive Json where
  | null : Json
  | bool (b : Bool) : Json
  | num (q : Rat) : Json
  | str (s : String) : Json
  | arr (elems : List Json) : Json
  | obj (fields : List (String × Json)) : Json
deriving Repr

/-- Go struct `Message`: role and content strings. -/
structure Message where
  Role : String
  Content : String
deriving DecidableEq, Repr

/-- Go struct `ChatCompletionRequest`. The four optional fields are Go
pointers with the `omitempty` JSON tag, modelled as `Option`. -/
structure ChatCompletionRequest where
  Model : String
  Messages : List Message
  Temperature : Option Rat
  MaxTokens : Option Int
  TopP : Option Rat
  Stream : Option Bool
deriving DecidableEq, Repr

/-- Go struct `Choice`. -/
structure Choice where
  Index : Int
  Message : Message
  FinishReason : String
deriving DecidableEq, Repr

/-- Go struct `Usage`. -/
structure Usage where
  PromptTokens : Int
  CompletionTokens : Int
  TotalTokens : Int
deriving DecidableEq, Repr

/-- Go struct `ChatCompletionResponse`. -/
structure ChatCompletionResponse where
  ID : String
  Object : String
  Created : Int
  Model : String
  Choices : List Choice
  Usage : Usage
deriving DecidableEq, Repr

/-- The anonymous inner struct of Go `ErrorResponse`. -/
structure ErrorDetail where
  message : String
  type : String
  code : String
deriving DecidableEq, Repr

/-- Go struct `ErrorResponse`. -/
structure ErrorResponse where
  error : ErrorDetail
deriving DecidableEq, Repr

/-! ### Marshalling (Go `json.Marshal` on these structs) -/

/-- `json.Marshal` on `Message`: both fields always emitted. -/
def Message.marshal (m : Message) : Json :=
  .obj [("role", .str m.Role), ("content", .str m.Content)]

/-- `json.Marshal` on `ChatCompletionRequest`: `model` and `messages` are
always emitted; each optional pointer field carries `omitempty` and is
omitted exactly when nil. -/
def ChatCompletionRequest.marshal (r : ChatCompletionRequest) : Json :=
  .obj (("model", .str r.Model)
    :: ("messages", .arr (r.Messages.map Message.marshal))
    :: ((match r.Temperature with
          | some q => [("temperature", Json.num q)]
          | none => [])
      ++ (match r.MaxTokens with
          | some n => [("max_tokens", Json.num (n : Rat))]
          | none => [])
      ++ (match r.TopP with
          | some q => [("top_p", Json.num q)]
          | none => [])
      ++ (match r.Stream with
          | some b => [("stream", Json.bool b)]
          | none => [])))

/-- `json.Marshal` on `Choice`. -/
def Choice.marshal (c : Choice) : Json :=
  .obj [("index", .num (c.Index : Rat)),
        ("message", c.Message.marshal),
        ("finish_reason", .str c.FinishReason)]

/-- `json.Marshal` on `Usage`. -/
def Usage.marshal (u : Usage) : Json :=
  .obj [("prompt_tokens", .num (u.PromptTokens : Rat)),
        ("completion_tokens", .num (u.CompletionTokens : Rat)),
        ("total_tokens", .num (u.TotalTokens : Rat))]

/-- `json.Marshal` on `ChatCompletionResponse`: every field always emitted. -/
def ChatCompletionResponse.marshal (r : ChatCompletionResponse) : Json :=
  .obj [("id", .str r.ID),
        ("object", .str r.Object),
        ("created", .num (r.Created : Rat)),
        ("model", .str r.Model),
        ("choices", .arr (r.Choices.map Choice.marshal)),
        ("usage", r.Usage.marshal)]

/-! ### Unmarshalling (Go `json.Unmarshal` into these structs)

Go semantics modelled: the top-level value must be an object (or null, which
leaves the zero value); object keys are processed in order, unknown keys are
ignored, later duplicates overwrite; a null value clears a pointer field and
leaves a non-pointer field unchanged; a type mismatch is an error. -/

/-- Decode a list of JSON values elementwise, failing on the first element
that fails (Go reports the error from decoding the array). -/
def mapExcept (f : α → Except String β) : List α → Except String (List β)
  | [] => .ok []
  | a :: as =>
    match f a with
    | .error e => .error e
    | .ok b =>
      match mapExcept f as with
      | .error e => .error e
      | .ok bs => .ok (b :: bs)

/-- Apply one JSON object entry to a partially decoded `Message`. -/
def Message.setField (m : Message) : String → Json → Except String Message
  | "role", .str s => .ok { m with Role := s }
  | "role", .null => .ok m
  | "role", _ => .error "cannot unmarshal into Go value of type string"
  | "content", .str s => .ok { m with Content := s }
  | "content", .null => .ok m
  | "content", _ => .error "cannot unmarshal into Go value of type string"
  | _, _ => .ok m

/-- Fold the entries of a JSON object over `Message.setField`. -/
def Message.applyFields (m : Message) : List (String × Json) → Except String Message
  | [] => .ok m
  | (k, v) :: rest =>
    match m.setField k v with
    | .error e => .error e
    | .ok m2 => m2.applyFields rest

/-- `json.Unmarshal` into `Message`. -/
def Message.unmarshal : Json → Except String Message
  | .null => .ok ⟨"", ""⟩
  | .obj fields => Message.applyFields ⟨"", ""⟩ fields
  | _ => .error "cannot unmarshal into Go value of type main.Message"

/-- The Go zero value of `ChatCompletionRequest`. -/
def ChatCompletionRequest.zero : ChatCompletionRequest :=
  ⟨"", [], none, none, none, none⟩

/-- Apply one JSON object entry to a partially decoded
`ChatCompletionRequest`. -/
def ChatCompletionRequest.setField (r : ChatCompletionRequest) :
    String → Json → Except String ChatCompletionRequest
  | "model", .str s => .ok { r with Model := s }
  | "model", .null => .ok r
  | "model", _ => .error "cannot unmarshal into Go value of type string"
  | "messages", .arr elems =>
    match mapExcept Message.unmarshal elems with
    | .error e => .error e
    | .ok ms => .ok { r with Messages := ms }
  | "messages", .null => .ok r
  | "messages", _ => .error "cannot unmarshal into Go value of type []main.Message"
  | "temperature", .num q => .ok { r with Temperature := some q }
  | "temperature", .null => .ok { r with Temperature := none }
  | "temperature", _ => .error "cannot unmarshal into Go value of type float64"
  | "max_tokens", .num q =>
    if q.den = 1 then .ok { r with MaxTokens := some q.num }
    else .error "cannot unmarshal number into Go value of type int"
  | "max_tokens", .null => .ok { r with MaxTokens := none }
  | "max_tokens", _ => .error "cannot unmarshal into Go value of type int"
  | "top_p", .num q => .ok { r with TopP := some q }
  | "top_p", .null => .ok { r with TopP := none }
  | "top_p", _ => .error "cannot unmarshal into Go value of type float64"
  | "stream", .bool b => .ok { r with Stream := some b }
  | "stream", .null => .ok { r with Stream := none }
  | "stream", _ => .error "cannot unmarshal into Go value of type bool"
  | _, _ => .ok r

/-- Fold the entries of a JSON object over
`ChatCompletionRequest.setField`. -/
def ChatCompletionRequest.applyFields (r : ChatCompletionRequest) :
    List (String × Json) → Except String ChatCompletionRequest
  | [] => .ok r
  | (k, v) :: rest =>
    match r.setField k v with
    | .error e => .error e
    | .ok r2 => r2.applyFields rest

/-- `json.Unmarshal` into `ChatCompletionRequest`. A JSON null succeeds and
leaves the zero value; any non-object, non-null document is an error. -/
def ChatCompletionRequest.unmarshal : Json → Except String ChatCompletionRequest
  | .null => .ok ChatCompletionRequest.zero
  | .obj fields => ChatCompletionRequest.applyFields ChatCompletionRequest.zero fields
  | _ => .error "cannot unmarshal into Go value of type main.ChatCompletionRequest"

/-- Apply one JSON object entry to a partially decoded `ErrorDetail`. -/
def ErrorDetail.setField (d : ErrorDetail) : String → Json → Except String ErrorDetail
  | "message", .str s => .ok { d with message := s }
  | "message", .null => .ok d
  | "message", _ => .error "cannot unmarshal into Go value of type string"
  | "type", .str s => .ok { d with type := s }
  | "type", .null => .ok d
  | "type", _ => .error "cannot unmarshal into Go value of type string"
  | "code", .str s => .ok { d with code := s }
  | "code", .null => .ok d
  | "code", _ => .error "cannot unmarshal into Go value of type string"
  | _, _ => .ok d

/-- Fold the entries of a JSON object over `ErrorDetail.setField`. -/
def ErrorDetail.applyFields (d : ErrorDetail) :
    List (String × Json) → Except String ErrorDetail
  | [] => .ok d
  | (k, v) :: rest =>
    match d.setField k v with
    | .error e => .error e
    | .ok d2 => d2.applyFields rest

/-- `json.Unmarshal` into the inner error struct. -/
def ErrorDetail.unmarshal : Json → Except String ErrorDetail
  | .null => .ok ⟨"", "", ""⟩
  | .obj fields => ErrorDetail.applyFields ⟨"", "", ""⟩ fields
  | _ => .error "cannot unmarshal into Go value of type struct"

/-- Apply one JSON object entry to a partially decoded `ErrorResponse`. -/
def ErrorResponse.setField (r : ErrorResponse) : String → Json → Except String ErrorResponse
  | "error", v =>
    match ErrorDetail.unmarshal v with
    | .error e => .error e
    | .ok d => .ok { r with error := d }
  | _, _ => .ok r

/-- Fold the entries of a JSON object over `ErrorResponse.setField`. -/
def ErrorResponse.applyFields (r : ErrorResponse) :
    List (String × Json) → Except String ErrorResponse
  | [] => .ok r
  | (k, v) :: rest =>
    match r.setField k v with
    | .error e => .error e
    | .ok r2 => r2.applyFields rest

/-- `json.Unmarshal` into `ErrorResponse`. -/
def ErrorResponse.unmarshal : Json → Except String ErrorResponse
  | .null => .ok ⟨⟨"", "", ""⟩⟩
  | .obj fields => ErrorResponse.applyFields ⟨⟨"", "", ""⟩⟩ fields
  | _ => .error "cannot unmarshal into Go value of type main.ErrorResponse"

/-- Decode a JSON value as a Go `int` / `int64` field: the number must be
integral. -/
def decodeInt (cur : Int) : Json → Except String Int
  | .num q =>
    if q.den = 1 then .ok q.num
    else .error "cannot unmarshal number into Go value of type int"
  | .null => .ok cur
  | _ => .error "cannot unmarshal into Go value of type int"

/-- Decode a JSON value as a Go `string` field. -/
def decodeString (cur : String) : Json → Except String String
  | .str s => .ok s
  | .null => .ok cur
  | _ => .error "cannot unmarshal into Go value of type string"

/-- Apply one JSON object entry to a partially decoded `Usage`. -/
def Usage.setField (u : Usage) : String → Json → Except String Usage
  | "prompt_tokens", v =>
    match decodeInt u.PromptTokens v with
    | .error e => .error e
    | .ok n => .ok { u with PromptTokens := n }
  | "completion_tokens", v =>
    match decodeInt u.CompletionTokens v with
    | .error e => .error e
    | .ok n => .ok { u with CompletionTokens := n }
  | "total_tokens", v =>
    match decodeInt u.TotalTokens v with
    | .error e => .error e
    | .ok n => .ok { u with TotalTokens := n }
  | _, _ => .ok u

/-- Fold the entries of a JSON object over `Usage.setField`. -/
def Usage.applyFields (u : Usage) : List (String × Json) → Except String Usage
  | [] => .ok u
  | (k, v) :: rest =>
    match u.setField k v with
    | .error e => .error e
    | .ok u2 => u2.applyFields rest

/-- `json.Unmarshal` into `Usage`. -/
def Usage.unmarshal : Json → Except String Usage
  | .null => .ok ⟨0, 0, 0⟩
  | .obj fields => Usage.applyFields ⟨0, 0, 0⟩ fields
  | _ => .error "cannot unmarshal into Go value of type main.Usage"

/-- Apply one JSON object entry to a partially decoded `Choice`. -/
def Choice.setField (c : Choice) : String → Json → Except String Choice
  | "index", v =>
    match decodeInt c.Index v with
    | .error e => .error e
    | .ok n => .ok { c with Index := n }
  | "message", v =>
    match Message.unmarshal v with
    | .error e => .error e
    | .ok m => .ok { c with Message := m }
  | "finish_reason", v =>
    match decodeString c.FinishReason v with
    | .error e => .error e
    | .ok s => .ok { c with FinishReason := s }
  | _, _ => .ok c

/-- Fold the entries of a JSON object over `Choice.setField`. -/
def Choice.applyFields (c : Choice) : List (String × Json) → Except String Choice
  | [] => .ok c
  | (k, v) :: rest =>
    match c.setField k v with
    | .error e => .error e
    | .ok c2 => c2.applyFields rest

/-- `json.Unmarshal` into `Choice`. -/
def Choice.unmarshal : Json → Except String Choice
  | .null => .ok ⟨0, ⟨"", ""⟩, ""⟩
  | .obj fields => Choice.applyFields ⟨0, ⟨"", ""⟩, ""⟩ fields
  | _ => .error "cannot unmarshal into Go value of type main.Choice"

/-- The Go zero value of `ChatCompletionResponse`. -/
def ChatCompletionResponse.zero : ChatCompletionResponse :=
  ⟨"", "", 0, "", [], ⟨0, 0, 0⟩⟩

/-- Apply one JSON object entry to a partially decoded
`ChatCompletionResponse`. -/
def ChatCompletionResponse.setField (r : ChatCompletionResponse) :
    String → Json → Except String ChatCompletionResponse
  | "id", v =>
    match decodeString r.ID v with
    | .error e => .error e
    | .ok s => .ok { r with ID := s }
  | "object", v =>
    match decodeString r.Object v with
    | .error e => .error e
    | .ok s => .ok { r with Object := s }
  | "created", v =>
    match decodeInt r.Created v with
    | .error e => .error e
    | .ok n => .ok { r with Created := n }
  | "model", v =>
    match decodeString r.Model v with
    | .error e => .error e
    | .ok s => .ok { r with Model := s }
  | "choices", .arr elems =>
    match mapExcept Choice.unmarshal elems with
    | .error e => .error e
    | .ok cs => .ok { r with Choices := cs }
  | "choices", .null => .ok r
  | "choices", _ => .error "cannot unmarshal into Go value of type []main.Choice"
  | "usage", v =>
    match Usage.unmarshal v with
    | .error e => .error e
    | .ok u => .ok { r with Usage := u }
  | _, _ => .ok r

/-- Fold the entries of a JSON object over
`ChatCompletionResponse.setField`. -/
def ChatCompletionResponse.applyFields (r : ChatCompletionResponse) :
    List (String × Json) → Except String ChatCompletionResponse
  | [] => .ok r
  | (k, v) :: rest =>
    match r.setField k v with
    | .error e => .error e
    | .ok r2 => r2.applyFields rest

/-- `json.Unmarshal` into `ChatCompletionResponse`. -/
def ChatCompletionResponse.unmarshal : Json → Except String ChatCompletionResponse
  | .null => .ok ChatCompletionResponse.zero
  | .obj fields => ChatCompletionResponse.applyFields ChatCompletionResponse.zero fields
  | _ => .error "cannot unmarshal into Go value of type main.ChatCompletionResponse"

/-! ### The real upstream client (`RealOpenAIClient.CreateChatCompletion`)

The network layer (`http.NewRequest`, `http.Client.Do`, `io.ReadAll`) is
abstracted as a `transport` function from the outbound request to either a
transport-level error (a failed send or read) or an `HttpReply` carrying the
status code, the raw body text, and — when the body text is well-formed
JSON — its parsed form. -/

/-- Go struct `RealOpenAIClient`. -/
structure RealOpenAIClient where
  APIKey : String
  BaseURL : String
deriving DecidableEq, Repr

/-- Go `NewRealOpenAIClient`. -/
def NewRealOpenAIClient (apiKey : String) : RealOpenAIClient :=
  ⟨apiKey, "https://api.openai.com/v1"⟩

/-- The outbound HTTP request built by `CreateChatCompletion`. -/
structure OutboundRequest where
  method : String
  url : String
  headers : List (String × String)
  body : Json
deriving Repr

/-- An upstream HTTP reply: status code, raw body text, and the parsed JSON
when the body is well-formed (`none` means the body text is not valid
JSON). -/
structure HttpReply where
  statusCode : Nat
  bodyText : String
  bodyJson : Option Json

/-- The exact outbound request `CreateChatCompletion` builds: a POST to the
chat-completions path under the configured base URL, with the
`Content-Type` and bearer `Authorization` headers, whose body is the
marshalled inbound request. -/
def RealOpenAIClient.buildRequest (c : RealOpenAIClient)
    (req : ChatCompletionRequest) : OutboundRequest :=
  { method := "POST"
    url := c.BaseURL ++ "/chat/completions"
    headers := [("Content-Type", "application/json"),
                ("Authorization", "Bearer " ++ c.APIKey)]
    body := req.marshal }

/-- `RealOpenAIClient.CreateChatCompletion`: build the outbound request, send
it through the transport, and decode the reply exactly as the Go code does:
a non-200 status is an error (carrying the provider message when the body
unmarshals as an `ErrorResponse`, the raw status and body text otherwise),
and on a 200 status the body must unmarshal as a
`ChatCompletionResponse`. -/
def RealOpenAIClient.CreateChatCompletion (c : RealOpenAIClient)
    (transport : OutboundRequest → Except String HttpReply)
    (req : ChatCompletionRequest) : Except String ChatCompletionResponse :=
  match transport (c.buildRequest req) with
  | .error e => .error ("failed to send request: " ++ e)
  | .ok reply =>
    if reply.statusCode ≠ 200 then
      match reply.bodyJson with
      | none =>
        .error ("API error (status " ++ toString reply.statusCode ++ "): "
          ++ reply.bodyText)
      | some j =>
        match ErrorResponse.unmarshal j with
        | .error _ =>
          .error ("API error (status " ++ toString reply.statusCode ++ "): "
            ++ reply.bodyText)
        | .ok errorResp => .error ("API error: " ++ errorResp.error.message)
    else
      match reply.bodyJson with
      | none => .error "failed to unmarshal response: invalid JSON"
      | some j =>
        match ChatCompletionResponse.unmarshal j with
        | .error e => .error ("failed to unmarshal response: " ++ e)
        | .ok chatResp => .ok chatResp

/-! ### The proxy handler (`ProxyServer.handleChatCompletions`) -/

/-- The proxy server holds an `OpenAIClient`; the interface has the single
operation `CreateChatCompletion`, modelled as a function. -/
structure ProxyServer where
  client : ChatCompletionRequest → Except String ChatCompletionResponse

/-- Go `NewProxyServer`. -/
def NewProxyServer
    (client : ChatCompletionRequest → Except String ChatCompletionResponse) :
    ProxyServer :=
  ⟨client⟩

/-- The inbound request body as the handler sees it: `io.ReadAll` may fail,
the bytes may not be valid JSON (carrying the raw text), or they parse to a
JSON document. -/
inductive ReqBody where
  | unreadable : ReqBody
  | malformed (text : String) : ReqBody
  | wellFormed (j : Json) : ReqBody

/-- An inbound HTTP request: its method and its body. -/
structure HttpRequest where
  method : String
  body : ReqBody

/-- What the handler writes: the plain-text body of `http.Error`, or a JSON
document written by `json.NewEncoder.Encode`. -/
inductive WireBody where
  | text (s : String) : WireBody
  | json (j : Json) : WireBody

/-- The observable outcome of one handler invocation: the response status,
the final `Content-Type` header, the response body, and the list of
requests passed to the upstream client (in order). -/
structure HandlerOutput where
  status : Nat
  contentType : String
  body : WireBody
  calls : List ChatCompletionRequest

/-- Go `http.Error`: sets a plain-text content type, writes the message
followed by a newline, and sets the status code. No upstream call is
recorded by itself. -/
def httpError (msg : String) (code : Nat) : HandlerOutput :=
  { status := code
    contentType := "text/plain; charset=utf-8"
    body := .text (msg ++ "\x0a")
    calls := [] }

/-- `ProxyServer.handleChatCompletions`, line by line. `encode` abstracts
`json.NewEncoder(w).Encode`, which serializes the response and may fail; the
production instantiation is `jsonEncode`, which never fails on these
types. -/
def ProxyServer.handleChatCompletions (s : ProxyServer)
    (encode : ChatCompletionResponse → Except String Json)
    (r : HttpRequest) : HandlerOutput :=
  if r.method ≠ "POST" then
    httpError "Method not allowed" 405
  else
    match r.body with
    | .unreadable => httpError "Failed to read request body" 400
    | .malformed _ => httpError "Invalid JSON in request body" 400
    | .wellFormed j =>
      match ChatCompletionRequest.unmarshal j with
      | .error _ => httpError "Invalid JSON in request body" 400
      | .ok req =>
        if req.Model = "" then
          httpError "Model field is required" 400
        else if req.Messages = [] then
          httpError "Messages field is required and cannot be empty" 400
        else
          match s.client req with
          | .error e =>
            { httpError ("OpenAI API error: " ++ e) 500 with calls := [req] }
          | .ok resp =>
            match encode resp with
            | .error _ =>
              { httpError "Failed to encode response" 500 with calls := [req] }
            | .ok out =>
              { status := 200
                contentType := "application/json"
                body := .json out
                calls := [req] }

/-- The production encoder: `json.Marshal` on a `ChatCompletionResponse`
never fails (every field is a basic type), so it returns the marshalled
document. -/
def jsonEncode (resp : ChatCompletionResponse) : Except String Json :=
  .ok resp.marshal

/-! ### Helper lemmas -/

/-- Decoding the marshalled form of a message list recovers the list. -/
theorem mapExcept_unmarshal_marshal_messages (ms : List Message) :
    mapExcept Message.unmarshal (ms.map Message.marshal) = .ok ms := by
  induction ms with
  | nil => rfl
  | cons m rest ih =>
    simp [mapExcept, Message.marshal, Message.unmarshal,
      Message.applyFields, Message.setField, ih]

/-- Round trip for `ChatCompletionRequest`: unmarshalling the marshalled
wire form recovers every field, present or absent. -/
theorem ChatCompletionRequest.unmarshal_marshal (r : ChatCompletionRequest) :
    ChatCompletionRequest.unmarshal r.marshal = .ok r := by
  obtain ⟨M, ms, t, mt, tp, st⟩ := r
  cases t <;> cases mt <;> cases tp <;> cases st <;>
    simp [ChatCompletionRequest.marshal, ChatCompletionRequest.unmarshal,
      ChatCompletionRequest.applyFields, ChatCompletionRequest.setField,
      ChatCompletionRequest.zero, mapExcept_unmarshal_marshal_messages,
      Rat.den_intCast, Rat.num_intCast]

/-! ### Claim theorems -/

/-- C7: serializing a `ChatCompletionRequest` with optional fields set and
deserializing the result yields equal field values, and an optional field
absent from the wire form deserializes to absent (`none`), not to a zero
value. -/
theorem chatCompletionRequest_json_roundtrip :
    (∀ r : ChatCompletionRequest, ChatCompletionRequest.unmarshal r.marshal = .ok r) ∧
    (ChatCompletionRequest.unmarshal
        (.obj [("model", .str "gpt-3.5-turbo"),
               ("messages", .arr [.obj [("role", .str "user"),
                                        ("content", .str "Hello!")]])])
      = .ok ⟨"gpt-3.5-turbo", [⟨"user", "Hello!"⟩], none, none, none, none⟩) :=
  ⟨ChatCompletionRequest.unmarshal_marshal, rfl⟩

/-- C8: any request whose method is not POST is answered with status 405 and
the method-not-allowed text, no upstream call is made, and the outcome does
not depend on the request body at all (the body is neither read nor
parsed). -/
theorem handleChatCompletions_rejects_non_post
    (s : ProxyServer) (encode : ChatCompletionResponse → Except String Json)
    (m : String) (b : ReqBody) (h : m ≠ "POST") :
    s.handleChatCompletions encode ⟨m, b⟩ = httpError "Method not allowed" 405 ∧
    (s.handleChatCompletions encode ⟨m, b⟩).status = 405 ∧
    (s.handleChatCompletions encode ⟨m, b⟩).calls = [] ∧
    (∀ b' : ReqBody,
      s.handleChatCompletions encode ⟨m, b⟩ = s.handleChatCompletions encode ⟨m, b'⟩) := by
  simp [ProxyServer.handleChatCompletions, h, httpError]

/-- C8 witness: a GET request with an unreadable body is answered 405 with
no upstream call. -/
theorem handleChatCompletions_rejects_non_post_witness :
    ((NewProxyServer fun _ => .error "unused").handleChatCompletions jsonEncode
        ⟨"GET", .unreadable⟩).status = 405 ∧
    ((NewProxyServer fun _ => .error "unused").handleChatCompletions jsonEncode
        ⟨"GET", .unreadable⟩).calls = [] := by
  have h := handleChatCompletions_rejects_non_post
    (NewProxyServer fun _ => .error "unused") jsonEncode "GET" .unreadable
    (by decide)
  exact ⟨h.2.1, h.2.2.1⟩

/-- C9: a POST whose body is not well-formed JSON is answered with status
400 and the invalid-JSON text, and no upstream call is made. -/
theorem handleChatCompletions_rejects_malformed_json
    (s : ProxyServer) (encode : ChatCompletionResponse → Except String Json)
    (t : String) :
    (s.handleChatCompletions encode ⟨"POST", .malformed t⟩).status = 400 ∧
    (s.handleChatCompletions encode ⟨"POST", .malformed t⟩).body
      = .text "Invalid JSON in request body\x0a" ∧
    (s.handleChatCompletions encode ⟨"POST", .malformed t⟩).calls = [] := by
  simp [ProxyServer.handleChatCompletions, httpError]

/-- C10: the JSON documents `null` and the empty object parse successfully
into the zero request, and the handler classifies them as a missing-model
client error: status 400 with the model-required text and no upstream
call, not a malformed-JSON error. -/
theorem handleChatCompletions_empty_document_is_missing_model
    (s : ProxyServer) (encode : ChatCompletionResponse → Except String Json) :
    ChatCompletionRequest.unmarshal .null = .ok ChatCompletionRequest.zero ∧
    ChatCompletionRequest.unmarshal (.obj []) = .ok ChatCompletionRequest.zero ∧
    s.handleChatCompletions encode ⟨"POST", .wellFormed .null⟩
      = httpError "Model field is required" 400 ∧
    s.handleChatCompletions encode ⟨"POST", .wellFormed (.obj [])⟩
      = httpError "Model field is required" 400 ∧
    (s.handleChatCompletions encode ⟨"POST", .wellFormed .null⟩).status = 400 ∧
    (s.handleChatCompletions encode ⟨"POST", .wellFormed .null⟩).calls = [] :=
  ⟨rfl, rfl, rfl, rfl, rfl, rfl⟩

/-- C1: a POST whose body parses into a request with an empty model or an
empty message list is answered with status 400 and one of the two
descriptive validation texts, and the upstream client is never invoked. -/
theorem handleChatCompletions_rejects_invalid_fields
    (s : ProxyServer) (encode : ChatCompletionResponse → Except String Json)
    (j : Json) (req : ChatCompletionRequest)
    (hparse : ChatCompletionRequest.unmarshal j = .ok req)
    (hbad : req.Model = "" ∨ req.Messages = []) :
    (s.handleChatCompletions encode ⟨"POST", .wellFormed j⟩).status = 400 ∧
    (s.handleChatCompletions encode ⟨"POST", .wellFormed j⟩).calls = [] ∧
    ((s.handleChatCompletions encode ⟨"POST", .wellFormed j⟩).body
        = .text "Model field is required\x0a" ∨
     (s.handleChatCompletions encode ⟨"POST", .wellFormed j⟩).body
        = .text "Messages field is required and cannot be empty\x0a") := by
  by_cases hm : req.Model = ""
  · simp [ProxyServer.handleChatCompletions, hparse, hm, httpError]
  · rcases hbad with h | h
    · exact absurd h hm
    · simp [ProxyServer.handleChatCompletions, hparse, hm, h, httpError]

/-- C1 witness: the concrete body carrying an empty model and one message
is rejected with 400 and zero upstream invocations. -/
theorem handleChatCompletions_rejects_invalid_fields_witness :
    ((NewProxyServer fun _ => .error "unused").handleChatCompletions jsonEncode
        ⟨"POST", .wellFormed (.obj [("model", .str ""),
          ("messages", .arr [.obj [("role", .str "user"),
                                   ("content", .str "Hi")]])])⟩).status = 400 ∧
    ((NewProxyServer fun _ => .error "unused").handleChatCompletions jsonEncode
        ⟨"POST", .wellFormed (.obj [("model", .str ""),
          ("messages", .arr [.obj [("role", .str "user"),
                                   ("content", .str "Hi")]])])⟩).calls = [] := by
  have h := handleChatCompletions_rejects_invalid_fields
    (NewProxyServer fun _ => .error "unused") jsonEncode
    (.obj [("model", .str ""),
           ("messages", .arr [.obj [("role", .str "user"),
                                    ("content", .str "Hi")]])])
    ⟨"", [⟨"user", "Hi"⟩], none, none, none, none⟩
    rfl (Or.inl rfl)
  exact ⟨h.1, h.2.1⟩

/-! ### Test fixtures shared by the witnesses -/

/-- The wire form of the request used in the repository tests. -/
def testRequestJson : Json :=
  .obj [("model", .str "gpt-3.5-turbo"),
        ("messages", .arr [.obj [("role", .str "user"),
                                 ("content", .str "Hello, how are you?")]]),
        ("temperature", .num (7 / 10))]

/-- The decoded form of `testRequestJson`. -/
def testRequest : ChatCompletionRequest :=
  ⟨"gpt-3.5-turbo", [⟨"user", "Hello, how are you?"⟩],
   some (7 / 10), none, none, none⟩

/-- The upstream response used in the repository tests. -/
def testResponse : ChatCompletionResponse :=
  ⟨"chatcmpl-test123", "chat.completion", 1700000000, "gpt-3.5-turbo",
   [⟨0, ⟨"assistant", "Hello there"⟩, "stop"⟩], ⟨12, 20, 32⟩⟩

/-- C3: when the parsed request is valid and the upstream client returns a
response, the handler answers 200 with a JSON content type, and the body it
writes is exactly the marshalled form of the response the client returned,
unchanged. -/
theorem handleChatCompletions_relays_response_verbatim
    (s : ProxyServer) (j : Json) (req : ChatCompletionRequest)
    (resp : ChatCompletionResponse)
    (hparse : ChatCompletionRequest.unmarshal j = .ok req)
    (hm : req.Model ≠ "") (hmsg : req.Messages ≠ [])
    (hclient : s.client req = .ok resp) :
    (s.handleChatCompletions jsonEncode ⟨"POST", .wellFormed j⟩).status = 200 ∧
    (s.handleChatCompletions jsonEncode ⟨"POST", .wellFormed j⟩).contentType
      = "application/json" ∧
    (s.handleChatCompletions jsonEncode ⟨"POST", .wellFormed j⟩).body
      = .json resp.marshal := by
  simp [ProxyServer.handleChatCompletions, hparse, hm, hmsg, hclient, jsonEncode]

/-- C3 witness: the test request against a client returning the fixed test
response yields 200, a JSON content type, and the marshalled response. -/
theorem handleChatCompletions_relays_response_verbatim_witness :
    ((NewProxyServer fun _ => .ok testResponse).handleChatCompletions jsonEncode
        ⟨"POST", .wellFormed testRequestJson⟩).status = 200 ∧
    ((NewProxyServer fun _ => .ok testResponse).handleChatCompletions jsonEncode
        ⟨"POST", .wellFormed testRequestJson⟩).contentType = "application/json" ∧
    ((NewProxyServer fun _ => .ok testResponse).handleChatCompletions jsonEncode
        ⟨"POST", .wellFormed testRequestJson⟩).body = .json testResponse.marshal :=
  handleChatCompletions_relays_response_verbatim
    (NewProxyServer fun _ => .ok testResponse) testRequestJson testRequest
    testResponse rfl (by decide) (by decide) rfl

/-- C4: for a valid inbound request the handler passes the parsed request to
the upstream client exactly once and unmodified, and the outbound HTTP
request the real client builds for it is a POST to the chat-completions
path whose payload is the marshalled inbound request, with exactly the
content-type and bearer-authorization headers added. -/
theorem proxy_forwards_request_unmodified
    (s : ProxyServer) (encode : ChatCompletionResponse → Except String Json)
    (j : Json) (req : ChatCompletionRequest) (c : RealOpenAIClient)
    (hparse : ChatCompletionRequest.unmarshal j = .ok req)
    (hm : req.Model ≠ "") (hmsg : req.Messages ≠ []) :
    (s.handleChatCompletions encode ⟨"POST", .wellFormed j⟩).calls = [req] ∧
    c.buildRequest req
      = { method := "POST"
          url := c.BaseURL ++ "/chat/completions"
          headers := [("Content-Type", "application/json"),
                      ("Authorization", "Bearer " ++ c.APIKey)]
          body := req.marshal } := by
  refine ⟨?_, rfl⟩
  cases hc : s.client req with
  | error e => simp [ProxyServer.handleChatCompletions, hparse, hm, hmsg, hc, httpError]
  | ok resp =>
    cases he : encode resp with
    | error msg =>
      simp [ProxyServer.handleChatCompletions, hparse, hm, hmsg, hc, he, httpError]
    | ok out => simp [ProxyServer.handleChatCompletions, hparse, hm, hmsg, hc, he]

/-- C4 witness: the test request is forwarded as-is, and the outbound
request built by a client constructed from a key carries exactly the two
headers and the marshalled payload. -/
theorem proxy_forwards_request_unmodified_witness :
    ((NewProxyServer fun _ => .ok testResponse).handleChatCompletions jsonEncode
        ⟨"POST", .wellFormed testRequestJson⟩).calls = [testRequest] ∧
    (NewRealOpenAIClient "test-api-key").buildRequest testRequest
      = { method := "POST"
          url := "https://api.openai.com/v1" ++ "/chat/completions"
          headers := [("Content-Type", "application/json"),
                      ("Authorization", "Bearer " ++ "test-api-key")]
          body := testRequest.marshal } :=
  proxy_forwards_request_unmodified
    (NewProxyServer fun _ => .ok testResponse) jsonEncode testRequestJson
    testRequest (NewRealOpenAIClient "test-api-key") rfl (by decide) (by decide)

/-- C5: for a valid inbound request, any error returned by the upstream
client is surfaced as status 500 with a body embedding the client error
message. -/
theorem handleChatCompletions_surfaces_client_error
    (s : ProxyServer) (encode : ChatCompletionResponse → Except String Json)
    (j : Json) (req : ChatCompletionRequest) (e : String)
    (hparse : ChatCompletionRequest.unmarshal j = .ok req)
    (hm : req.Model ≠ "") (hmsg : req.Messages ≠ [])
    (hclient : s.client req = .error e) :
    (s.handleChatCompletions encode ⟨"POST", .wellFormed j⟩).status = 500 ∧
    (s.handleChatCompletions encode ⟨"POST", .wellFormed j⟩).body
      = .text ("OpenAI API error: " ++ e ++ "\x0a") := by
  simp [ProxyServer.handleChatCompletions, hparse, hm, hmsg, hclient, httpError]

/-- C5 witness: a client failing with the rate-limit message yields status
500 and a body embedding that message. -/
theorem handleChatCompletions_surfaces_client_error_witness :
    ((NewProxyServer fun _ => .error "rate limit exceeded").handleChatCompletions
        jsonEncode ⟨"POST", .wellFormed testRequestJson⟩).status = 500 ∧
    ((NewProxyServer fun _ => .error "rate limit exceeded").handleChatCompletions
        jsonEncode ⟨"POST", .wellFormed testRequestJson⟩).body
      = .text ("OpenAI API error: " ++ "rate limit exceeded" ++ "\x0a") :=
  handleChatCompletions_surfaces_client_error
    (NewProxyServer fun _ => .error "rate limit exceeded") jsonEncode
    testRequestJson testRequest "rate limit exceeded" rfl (by decide) (by decide) rfl

/-- C6: for a valid inbound request whose upstream call succeeds, a failure
of the response encoder is answered with status 500 and the generic
encoding-failure text. -/
theorem handleChatCompletions_reports_encoding_failure
    (s : ProxyServer) (encode : ChatCompletionResponse → Except String Json)
    (j : Json) (req : ChatCompletionRequest) (resp : ChatCompletionResponse)
    (msg : String)
    (hparse : ChatCompletionRequest.unmarshal j = .ok req)
    (hm : req.Model ≠ "") (hmsg : req.Messages ≠ [])
    (hclient : s.client req = .ok resp)
    (henc : encode resp = .error msg) :
    (s.handleChatCompletions encode ⟨"POST", .wellFormed j⟩).status = 500 ∧
    (s.handleChatCompletions encode ⟨"POST", .wellFormed j⟩).body
      = .text "Failed to encode response\x0a" := by
  simp [ProxyServer.handleChatCompletions, hparse, hm, hmsg, hclient, henc, httpError]

/-- C6 witness: with an encoder that always fails, the handler answers 500
with the generic text. -/
theorem handleChatCompletions_reports_encoding_failure_witness :
    ((NewProxyServer fun _ => .ok testResponse).handleChatCompletions
        (fun _ => .error "marshal failure")
        ⟨"POST", .wellFormed testRequestJson⟩).status = 500 ∧
    ((NewProxyServer fun _ => .ok testResponse).handleChatCompletions
        (fun _ => .error "marshal failure")
        ⟨"POST", .wellFormed testRequestJson⟩).body
      = .text "Failed to encode response\x0a" :=
  handleChatCompletions_reports_encoding_failure
    (NewProxyServer fun _ => .ok testResponse) (fun _ => .error "marshal failure")
    testRequestJson testRequest testResponse "marshal failure"
    rfl (by decide) (by decide) rfl rfl

/-- C2: when the transport delivers a reply, every non-200 status yields an
error and no response: the provider message when the body unmarshals as an
`ErrorResponse`, the raw status code and body text when the body is not
JSON or does not unmarshal; and on a 200 status a body that fails to
deserialize as a `ChatCompletionResponse` also yields an error. -/
theorem createChatCompletion_error_paths
    (c : RealOpenAIClient) (transport : OutboundRequest → Except String HttpReply)
    (req : ChatCompletionRequest) (reply : HttpReply)
    (hsend : transport (c.buildRequest req) = .ok reply) :
    (reply.statusCode ≠ 200 →
      ∃ msg, c.CreateChatCompletion transport req = .error msg) ∧
    (reply.statusCode ≠ 200 →
      ∀ j er, reply.bodyJson = some j → ErrorResponse.unmarshal j = .ok er →
        c.CreateChatCompletion transport req
          = .error ("API error: " ++ er.error.message)) ∧
    (reply.statusCode ≠ 200 →
      (reply.bodyJson = none ∨
        ∃ j e, reply.bodyJson = some j ∧ ErrorResponse.unmarshal j = .error e) →
        c.CreateChatCompletion transport req
          = .error ("API error (status " ++ toString reply.statusCode ++ "): "
              ++ reply.bodyText)) ∧
    (reply.statusCode = 200 →
      ∀ j e, reply.bodyJson = some j →
        ChatCompletionResponse.unmarshal j = .error e →
        c.CreateChatCompletion transport req
          = .error ("failed to unmarshal response: " ++ e)) := by
  refine ⟨?_, ?_, ?_, ?_⟩
  · intro hne
    unfold RealOpenAIClient.CreateChatCompletion
    rw [hsend]
    simp only [hne, if_pos, ne_eq, not_false_iff, if_true]
    cases hbj : reply.bodyJson with
    | none => exact ⟨_, rfl⟩
    | some j =>
      cases he : ErrorResponse.unmarshal j with
      | error e =>
        refine ⟨"API error (status " ++ toString reply.statusCode ++ "): "
          ++ reply.bodyText, ?_⟩
        simp [he]
      | ok er =>
        refine ⟨"API error: " ++ er.error.message, ?_⟩
        simp [he]
  · intro hne j er hbj he
    unfold RealOpenAIClient.CreateChatCompletion
    rw [hsend]
    simp [hne, hbj, he]
  · intro hne hraw
    unfold RealOpenAIClient.CreateChatCompletion
    rw [hsend]
    rcases hraw with hbj | ⟨j, e, hbj, he⟩
    · simp [hne, hbj]
    · simp [hne, hbj, he]
  · intro h200 j e hbj he
    unfold RealOpenAIClient.CreateChatCompletion
    rw [hsend]
    simp [h200, hbj, he]

/-- C2 witness: a 429 reply whose body carries a provider error message
makes `CreateChatCompletion` fail with that message. -/
theorem createChatCompletion_error_paths_witness :
    ((429 : Nat) ≠ 200) ∧
    (NewRealOpenAIClient "test-api-key").CreateChatCompletion
        (fun _ => .ok ⟨429, "rate limited body",
          some (.obj [("error", .obj [("message", .str "Rate limit reached")])])⟩)
        testRequest
      = .error ("API error: " ++ "Rate limit reached") := by
  refine ⟨by decide, ?_⟩
  have h := createChatCompletion_error_paths (NewRealOpenAIClient "test-api-key")
    (fun _ => .ok ⟨429, "rate limited body",
      some (.obj [("error", .obj [("message", .str "Rate limit reached")])])⟩)
    testRequest
    ⟨429, "rate limited body",
      some (.obj [("error", .obj [("message", .str "Rate limit reached")])])⟩
    rfl
  exact h.2.1 (by decide) (.obj [("error", .obj [("message", .str "Rate limit reached")])])
    ⟨⟨"Rate limit reached", "", ""⟩⟩ rfl rfl
